import Mathlib

/-!
Shallow embedding of the Hanna Cloud Home Assistant integration
(`custom_components/hanna`): the API client (`HannaCloudAPI.authenticate`,
`get_devices`, `get_device_readings`), the polling coordinator
(`HannaCloudCoordinator._async_update_data`), the credential cipher
(`hanna_encrypt`) and the config flow (`validate_input`,
`ConfigFlow.async_step_user`).

JSON payloads are modelled by an inductive `Json`; Python dynamic accesses
(`x in d`, `d[k]`, `lst[0]`, `d.get(k)`, iteration, truthiness) are modelled
by total functions into `Except PyErr _`, where `PyErr` distinguishes
`UpdateFailed` (the integration's own error type) from every other Python
exception.  The HTTP transport is modelled as a script: a list of
`HttpOutcome`s consumed one per request, each request being logged.
-/

set_option maxHeartbeats 1000000
set_option maxRecDepth 10000

namespace Hanna

/-- JSON values as delivered by `response.json()`. -/
inductive Json where
  | null : Json
  | bool : Bool → Json
  | num : Int → Json
  | str : String → Json
  | arr : List Json → Json
  | obj : List (String × Json) → Json

/-- A hashable JSON value, usable as a Python dict key.  Lists and dicts are
unhashable: using one as a key raises `TypeError`, so only scalars ever enter
the readings dictionary. -/
inductive JKey where
  | null : JKey
  | bool : Bool → JKey
  | num : Int → JKey
  | str : String → JKey
deriving DecidableEq, Repr

namespace Json

/-- View a JSON value as a dict key; `none` for the unhashable values. -/
def toKey : Json → Option JKey
  | .null => some .null
  | .bool b => some (.bool b)
  | .num n => some (.num n)
  | .str s => some (.str s)
  | .arr _ => none
  | .obj _ => none

/-- Python truthiness of a JSON value (`if data:` etc.):
`None`, `False`, `0`, `""`, `[]`, `{}` are falsy. -/
def truthy : Json → Bool
  | .null => false
  | .bool b => b
  | .num n => n != 0
  | .str s => s ≠ ""
  | .arr xs => !xs.isEmpty
  | .obj fs => !fs.isEmpty

/-- First binding of a key in an object's field list (Python dicts have
unique keys, so first = only). -/
def lookupField : List (String × Json) → String → Option Json
  | [], _ => none
  | (k', v) :: fs, k => if k' = k then some v else lookupField fs k

end Json

/-- A Python exception, as coarse as the embedding needs: the integration's
own `UpdateFailed(msg)` versus any other exception (`KeyError`, `TypeError`,
JSON decode errors, `aiohttp` client errors, ...). -/
inductive PyErr where
  | updateFailed : String → PyErr
  | other : String → PyErr
deriving DecidableEq, Repr

/-- Python equality `x == key` between a JSON value and a string literal:
true exactly for the equal string (JSON values of other types never equal a
string). -/
def Json.eqStr (x : Json) (key : String) : Bool :=
  match x with
  | .str s => s = key
  | _ => false

/-- How a Python exception prints inside an f-string (`f"... {err}"`):
`UpdateFailed` prints its message. -/
def PyErr.msg : PyErr → String
  | .updateFailed m => m
  | .other m => m

/-- Python `key in container` for a string key: key membership for dicts,
element membership for lists, substring test for strings, `TypeError`
otherwise. -/
def pyIn (container : Json) (key : String) : Except PyErr Bool :=
  match container with
  | .obj fs => .ok (fs.any (fun p => p.1 = key))
  | .arr xs => .ok (xs.any (fun x => x.eqStr key))
  | .str s => .ok ((key.toList).IsInfix s.toList |> decide)
  | _ => .error (.other "TypeError: argument of type is not iterable")

/-- Python `container[key]` for a string key: dict lookup (`KeyError` when
absent), `TypeError` on every other type (list/str indices must be integers). -/
def pySubscript (container : Json) (key : String) : Except PyErr Json :=
  match container with
  | .obj fs =>
    match Json.lookupField fs key with
    | some v => .ok v
    | none => .error (.other "KeyError")
  | _ => .error (.other "TypeError: subscript")

/-- Python `container[0]`: head of a list (`IndexError` when empty), first
character of a string, `KeyError`/`TypeError` otherwise. -/
def pyIndexZero (container : Json) : Except PyErr Json :=
  match container with
  | .arr [] => .error (.other "IndexError")
  | .arr (x :: _) => .ok x
  | .str s =>
    match s.toList with
    | [] => .error (.other "IndexError")
    | c :: _ => .ok (.str (String.mk [c]))
  | .obj _ => .error (.other "KeyError")
  | _ => .error (.other "TypeError: not subscriptable")

/-- Python `container.get(key, default)`: only dicts have `.get`;
anything else raises `AttributeError`. -/
def pyGet (container : Json) (key : String) (dflt : Json) : Except PyErr Json :=
  match container with
  | .obj fs => .ok ((Json.lookupField fs key).getD dflt)
  | _ => .error (.other "AttributeError")

/-- Python iteration `for x in container`: list elements, string characters,
dict keys; `TypeError` otherwise. -/
def pyIterate (container : Json) : Except PyErr (List Json) :=
  match container with
  | .arr xs => .ok xs
  | .str s => .ok (s.toList.map (fun c => .str (String.mk [c])))
  | .obj fs => .ok (fs.map (fun p => .str p.1))
  | _ => .error (.other "TypeError: not iterable")

/-- The outcome the transport produces for one HTTP request: a timeout
(`asyncio.TimeoutError`), a transport-level error (`aiohttp.ClientError`),
or a response with a status code and a body; `body = none` models a body on
which `response.json()` raises. -/
inductive HttpOutcome where
  | timeout : HttpOutcome
  | netError : HttpOutcome
  | resp : Nat → Option Json → HttpOutcome

/-- One logged HTTP request: the `/api/auth` login post, the `Devices`
GraphQL query, or the `GetLastDeviceReading` GraphQL query with its
`deviceIds` variable. -/
inductive Req where
  | auth : Req
  | devices : Req
  | readings : List Json → Req

/-- The login-shape handling of `HannaCloudAPI.authenticate`
(`__init__.py` lines 154-175): accepts both the list and the object login
shape; `some token` when the code stores a token and returns `True`. -/
def authLoginE (data : Json) : Except PyErr (Option Json) := do
  -- if (data and "data" in data and data["data"] and "login" in data["data"]):
  let cond ←
    if data.truthy then do
      let hasData ← pyIn data "data"
      if hasData then do
        let dd ← pySubscript data "data"
        if dd.truthy then pyIn dd "login"
        else pure false
      else pure false
    else pure false
  if cond then do
    let dd ← pySubscript data "data"
    let login ← pySubscript dd "login"
    -- token = None; isinstance(list) and len > 0 / isinstance(dict)
    let token : Json ←
      match login with
      | .arr (x :: _) => pyGet x "token" .null
      | .arr [] => pure .null
      | .obj _ => pyGet login "token" .null
      | _ => pure .null
    if token.truthy then pure (some token) else pure none
  else pure none

/-- The response-parsing block of `HannaCloudAPI.authenticate`
(`__init__.py` lines 144-180, inside `try`/`except`): returns
`some token` when the code would store a token and return `True`;
any internal exception or failure path returns `none` (return `False`). -/
def authBodyE (data : Json) : Except PyErr (Option Json) := do
  -- if "errors" in data and data["errors"]:
  let hasErrKey ← pyIn data "errors"
  let errTruthy ←
    if hasErrKey then do
      let e ← pySubscript data "errors"
      pure e.truthy
    else pure false
  if errTruthy then do
    -- error_msg = data["errors"][0].get("message", "Unknown error"); return False
    let errs ← pySubscript data "errors"
    let e0 ← pyIndexZero errs
    let _ ← pyGet e0 "message" (.str "Unknown error")
    pure none
  else authLoginE data

/-- `authenticate`'s 200-response handling with its enclosing
`except Exception: return False`: every internal exception is a failure. -/
def authenticateBody (data : Json) : Option Json :=
  match authBodyE data with
  | .ok r => r
  | .error _ => none

/-- `HannaCloudAPI.authenticate` as a function of the stored token and the
transport outcome of its single POST to `/api/auth`: returns the Python
return value and the new stored token (`self.token` is written only on the
success path). -/
def authenticate (st : Option Json) (o : HttpOutcome) : Bool × Option Json :=
  match o with
  | .timeout => (false, st)
  | .netError => (false, st)
  | .resp status body =>
    if status = 200 then
      match body with
      | none => (false, st)      -- response.json() raised; caught, return False
      | some data =>
        match authenticateBody data with
        | some tok => (true, some tok)
        | none => (false, st)
    else (false, st)

/-- How a value prints inside a Python f-string, as far as any theorem
needs it: scalars print their value; the container abbreviations are never
inspected by a theorem. -/
def Json.fstr : Json → String
  | .str s => s
  | .num n => toString n
  | .bool true => "True"
  | .bool false => "False"
  | .null => "None"
  | .arr _ => "[list]"
  | .obj _ => "dict"

/-- `if not self.token:` — the stored token is absent or falsy. -/
def tokenFalsy (st : Option Json) : Bool :=
  match st with
  | none => true
  | some t => !t.truthy

/-- Result of one API-client call: the Python return value or the raised
exception, the stored token afterwards, the unconsumed transport script,
and the log of HTTP requests the call issued. -/
structure ApiRes (α : Type) where
  res : Except PyErr α
  token : Option Json
  rest : List HttpOutcome
  reqs : List Req

/-- The 200-response handling of `get_devices` (`__init__.py` lines
264-273): return `data["data"]["devices"]`, or raise `UpdateFailed` on a
GraphQL `errors` payload or an unexpected shape. -/
def devicesParse (data : Json) : Except PyErr Json := do
  -- if "data" in data and "devices" in data["data"]:
  let c1 ← pyIn data "data"
  let cond ←
    if c1 then do
      let dd ← pySubscript data "data"
      pyIn dd "devices"
    else pure false
  if cond then do
    let dd ← pySubscript data "data"
    pySubscript dd "devices"
  else do
    -- elif "errors" in data:
    let c2 ← pyIn data "errors"
    if c2 then do
      let errs ← pySubscript data "errors"
      let e0 ← pyIndexZero errs
      let msg ← pyGet e0 "message" (.str "Unknown GraphQL error")
      .error (.updateFailed ("GraphQL error: " ++ msg.fstr))
    else .error (.updateFailed "Unexpected response format")

/-- Python dict membership test used by the insertion model. -/
def dictContains (m : List (JKey × Json)) (k : JKey) : Bool :=
  m.any (fun p => p.1 == k)

/-- Python dict assignment `m[k] = v`: overwrite in place (keys keep their
insertion position), append when the key is new. -/
def dictInsert (m : List (JKey × Json)) (k : JKey) (v : Json) : List (JKey × Json) :=
  if dictContains m k then m.map (fun p => if p.1 == k then (k, v) else p)
  else m ++ [(k, v)]

/-- Python dict lookup `m[k]` as an option. -/
def dictLookup (m : List (JKey × Json)) (k : JKey) : Option Json :=
  (m.find? (fun p => p.1 == k)).map (fun p => p.2)

/-- One step of the dict comprehension
`{reading["DID"]: reading for reading in ...}` of `get_device_readings`
(`__init__.py` line 335): key the record on its `"DID"`; a reading without
a `"DID"` or with an unhashable `"DID"` raises. -/
def readingStep (m : List (JKey × Json)) (r : Json) : Except PyErr (List (JKey × Json)) := do
  let kj ← pySubscript r "DID"
  match kj.toKey with
  | some k => pure (dictInsert m k r)
  | none => .error (.other "TypeError: unhashable type")

/-- The dict comprehension itself: left-to-right over the response list,
later occurrences of a key overwrite earlier ones. -/
def buildReadingsDict (rs : List Json) : Except PyErr (List (JKey × Json)) :=
  rs.foldlM readingStep []

/-- `reading["DID"]` as a dict key, when present and hashable. -/
def didKey (r : Json) : Option JKey :=
  match pySubscript r "DID" with
  | .ok v => v.toKey
  | .error _ => none

/-- The 200-response handling of `get_device_readings` (`__init__.py`
lines 333-337): `some dict` when the shape check passes and the
comprehension succeeds; `none` models falling through the `if` without a
return (the code then reaches the status checks below). -/
def readingsParse (data : Json) : Except PyErr (Option (List (JKey × Json))) := do
  -- if "data" in data and "lastDeviceReadings" in data["data"]:
  let c1 ← pyIn data "data"
  let cond ←
    if c1 then do
      let dd ← pySubscript data "data"
      pyIn dd "lastDeviceReadings"
    else pure false
  if cond then do
    let dd ← pySubscript data "data"
    let lst ← pySubscript dd "lastDeviceReadings"
    let items ← pyIterate lst
    let d ← buildReadingsDict items
    pure (some d)
  else pure none

mutual

/-- `HannaCloudAPI.get_devices` over a transport script: authenticate first
when no truthy token is held (`UpdateFailed "Authentication failed"` when
that fails), then issue the `Devices` request.  An exhausted script stands
for a request that never answers, i.e. a timeout. -/
def getDevices (st : Option Json) (tr : List HttpOutcome) : ApiRes Json :=
  if tokenFalsy st then
    match tr with
    | [] => ⟨.error (.updateFailed "Authentication failed"), st, [], [.auth]⟩
    | o :: rest =>
      let a := authenticate st o
      if a.1 then
        let r := getDevicesReq a.2 rest
        ⟨r.res, r.token, r.rest, .auth :: r.reqs⟩
      else ⟨.error (.updateFailed "Authentication failed"), a.2, rest, [.auth]⟩
  else getDevicesReq st tr
termination_by 2 * tr.length + 1

/-- The request/response part of `get_devices` (`__init__.py` lines
252-289), including the 401/403 branch: clear the token, re-authenticate,
and on success retry via a recursive `get_devices()` call. -/
def getDevicesReq (st : Option Json) (tr : List HttpOutcome) : ApiRes Json :=
  match tr with
  | [] => ⟨.error (.updateFailed "Timeout getting devices"), st, [], [.devices]⟩
  | .timeout :: rest => ⟨.error (.updateFailed "Timeout getting devices"), st, rest, [.devices]⟩
  | .netError :: rest => ⟨.error (.other "aiohttp.ClientError"), st, rest, [.devices]⟩
  | .resp status body :: rest =>
    if status = 200 then
      match body with
      | none => ⟨.error (.other "JSONDecodeError"), st, rest, [.devices]⟩
      | some data => ⟨devicesParse data, st, rest, [.devices]⟩
    else if status = 401 ∨ status = 403 then
      -- self.token = None; if await self.authenticate(): return await self.get_devices()
      match rest with
      | [] => ⟨.error (.updateFailed "Re-authentication failed"), none, [], [.devices, .auth]⟩
      | a :: rest2 =>
        let aa := authenticate none a
        if aa.1 then
          let r := getDevices aa.2 rest2
          ⟨r.res, r.token, r.rest, .devices :: .auth :: r.reqs⟩
        else ⟨.error (.updateFailed "Re-authentication failed"), aa.2, rest2, [.devices, .auth]⟩
    else ⟨.error (.updateFailed ("Failed to get devices: " ++ toString status)), st, rest, [.devices]⟩
termination_by 2 * tr.length

end

/-- The 200-response outcome of `get_device_readings`: return the built
dict, propagate an internal exception, or — when the shape check fails and
the code falls through past the 401/403 test — raise
`UpdateFailed("Failed to get device readings: 200")`. -/
def readings200 (ids : List Json) (st : Option Json) (rest : List HttpOutcome) (status : Nat)
    (data : Json) : ApiRes (List (JKey × Json)) :=
  match readingsParse data with
  | .error e => ⟨.error e, st, rest, [.readings ids]⟩
  | .ok (some d) => ⟨.ok d, st, rest, [.readings ids]⟩
  | .ok none =>
    ⟨.error (.updateFailed ("Failed to get device readings: " ++ toString status)),
      st, rest, [.readings ids]⟩

mutual

/-- `HannaCloudAPI.get_device_readings` over a transport script: same
authentication preamble and 401/403 retry policy as `get_devices`. -/
def getDeviceReadings (ids : List Json) (st : Option Json) (tr : List HttpOutcome) :
    ApiRes (List (JKey × Json)) :=
  if tokenFalsy st then
    match tr with
    | [] => ⟨.error (.updateFailed "Authentication failed"), st, [], [.auth]⟩
    | o :: rest =>
      let a := authenticate st o
      if a.1 then
        let r := getDeviceReadingsReq ids a.2 rest
        ⟨r.res, r.token, r.rest, .auth :: r.reqs⟩
      else ⟨.error (.updateFailed "Authentication failed"), a.2, rest, [.auth]⟩
  else getDeviceReadingsReq ids st tr
termination_by 2 * tr.length + 1

/-- The request/response part of `get_device_readings` (`__init__.py`
lines 321-352).  Unlike `get_devices`, a 200 response whose body fails the
shape check falls through to `raise UpdateFailed("Failed to get device
readings: 200")`. -/
def getDeviceReadingsReq (ids : List Json) (st : Option Json) (tr : List HttpOutcome) :
    ApiRes (List (JKey × Json)) :=
  match tr with
  | [] => ⟨.error (.updateFailed "Timeout getting device readings"), st, [], [.readings ids]⟩
  | .timeout :: rest =>
    ⟨.error (.updateFailed "Timeout getting device readings"), st, rest, [.readings ids]⟩
  | .netError :: rest => ⟨.error (.other "aiohttp.ClientError"), st, rest, [.readings ids]⟩
  | .resp status body :: rest =>
    if status = 200 then
      match body with
      | none => ⟨.error (.other "JSONDecodeError"), st, rest, [.readings ids]⟩
      | some data => readings200 ids st rest status data
    else if status = 401 ∨ status = 403 then
      match rest with
      | [] => ⟨.error (.updateFailed "Re-authentication failed"), none, [], [.readings ids, .auth]⟩
      | a :: rest2 =>
        let aa := authenticate none a
        if aa.1 then
          let r := getDeviceReadings ids aa.2 rest2
          ⟨r.res, r.token, r.rest, .readings ids :: .auth :: r.reqs⟩
        else ⟨.error (.updateFailed "Re-authentication failed"), aa.2, rest2, [.readings ids, .auth]⟩
    else
      ⟨.error (.updateFailed ("Failed to get device readings: " ++ toString status)),
        st, rest, [.readings ids]⟩
termination_by 2 * tr.length

end

/-- The published snapshot: `{"devices": ..., "readings": ...}` returned by
`_async_update_data`. -/
structure PollResult where
  devices : Json
  readings : List (JKey × Json)

/-- `[device["DID"] for device in devices]` (`__init__.py` line 386). -/
def deviceIdsOf (devices : Json) : Except PyErr (List Json) := do
  let items ← pyIterate devices
  items.mapM (fun d => pySubscript d "DID")

/-- Result of one `_async_update_data` cycle: the returned `PollResult` or
the message of the single `UpdateFailed` it raises, plus token state,
unconsumed script and request log. -/
structure CycleRes where
  res : Except String PollResult
  token : Option Json
  rest : List HttpOutcome
  reqs : List Req

/-- `except Exception as err: raise UpdateFailed(f"Error communicating with
API: {err}")` (`__init__.py` lines 396-397): every exception — an
`UpdateFailed` from the API layer or any other — is wrapped into exactly
one `UpdateFailed`. -/
def wrapMsg (e : PyErr) : String := "Error communicating with API: " ++ e.msg

/-- `HannaCloudCoordinator._async_update_data` (`__init__.py` lines
379-397). -/
def coordUpdate (st : Option Json) (tr : List HttpOutcome) : CycleRes :=
  let r1 := getDevices st tr
  match r1.res with
  | .error e => ⟨.error (wrapMsg e), r1.token, r1.rest, r1.reqs⟩
  | .ok devices =>
    if !devices.truthy then
      -- if not devices: return {"devices": [], "readings": {}}
      ⟨.ok ⟨Json.arr [], []⟩, r1.token, r1.rest, r1.reqs⟩
    else
      match deviceIdsOf devices with
      | .error e => ⟨.error (wrapMsg e), r1.token, r1.rest, r1.reqs⟩
      | .ok ids =>
        let r2 := getDeviceReadings ids r1.token r1.rest
        match r2.res with
        | .error e => ⟨.error (wrapMsg e), r2.token, r2.rest, r1.reqs ++ r2.reqs⟩
        | .ok readings => ⟨.ok ⟨devices, readings⟩, r2.token, r2.rest, r1.reqs ++ r2.reqs⟩

/-- Coordinator state: the API client's token slot and the last published
`PollResult` (`coordinator.data`). -/
structure CoordState where
  token : Option Json
  published : Option PollResult

/-- Modelled from the spec: Home Assistant's `DataUpdateCoordinator`
(external library, not part of this repository) publishes the value
returned by `_async_update_data` as `coordinator.data` on success and, on
`UpdateFailed`, records the error while leaving the previously published
data untouched. -/
def refreshStep (cs : CoordState) (tr : List HttpOutcome) :
    CoordState × Option String × List HttpOutcome :=
  let r := coordUpdate cs.token tr
  match r.res with
  | .ok pr => (⟨r.token, some pr⟩, none, r.rest)
  | .error msg => (⟨r.token, cs.published⟩, some msg, r.rest)

/-- Modelled from the spec: `async_config_entry_first_refresh` (external
library) turns a failed first refresh into `ConfigEntryNotReady`, which
`async_setup_entry` (`__init__.py` lines 26-30) re-raises, so setup aborts
with nothing published; on success the coordinator is stored and setup
returns `True`. -/
def setupEntry (tr : List HttpOutcome) : Except String CoordState :=
  let cs0 : CoordState := ⟨none, none⟩
  let r := refreshStep cs0 tr
  match r.2.1 with
  | none => .ok r.1
  | some msg => .error msg

/-! ### Credential cipher (`hanna_encrypt`)

`hanna_encrypt` composes standard primitives (`base64.b64decode`,
UTF-8 encoding, PKCS#7 `pad`, AES-256-CBC, `bytes.hex`).  They are embedded
concretely below; the AES-256 block cipher is checked inside this file
against the FIPS-197 appendix C.3 test vector.  The only abstraction is
`random.choice`, modelled as a stream `rng` of draws. -/

/-- UTF-8 encoding of one character (`str.encode()`). -/
def utf8Bytes (c : Char) : List Nat :=
  let n := c.toNat
  if n < 0x80 then [n]
  else if n < 0x800 then [0xC0 ||| (n >>> 6), 0x80 ||| (n &&& 0x3F)]
  else if n < 0x10000 then
    [0xE0 ||| (n >>> 12), 0x80 ||| ((n >>> 6) &&& 0x3F), 0x80 ||| (n &&& 0x3F)]
  else
    [0xF0 ||| (n >>> 18), 0x80 ||| ((n >>> 12) &&& 0x3F),
     0x80 ||| ((n >>> 6) &&& 0x3F), 0x80 ||| (n &&& 0x3F)]

/-- UTF-8 encoding of a string as a byte list. -/
def strBytes (s : String) : List Nat := (s.toList.map utf8Bytes).flatten

/-- The base64 alphabet value of a character. -/
def b64Val (c : Char) : Option Nat :=
  "ABCDEFGHIJKLMNOPQRSTUVWXYZabcdefghijklmnopqrstuvwxyz0123456789+/".toList.findIdx?
    (fun x => x == c)

/-- Groups of base64 sextets to bytes. -/
def b64DecodeVals : List Nat → List Nat
  | a :: b :: c :: d :: rest =>
    (a <<< 2 ||| b >>> 4) :: ((b &&& 15) <<< 4 ||| c >>> 2) ::
      ((c &&& 3) <<< 6 ||| d) :: b64DecodeVals rest
  | [a, b, c] => [a <<< 2 ||| b >>> 4, (b &&& 15) <<< 4 ||| c >>> 2]
  | [a, b] => [a <<< 2 ||| b >>> 4]
  | _ => []

/-- `base64.b64decode` for padded input. -/
def b64Decode (s : String) : List Nat :=
  b64DecodeVals ((s.toList.filter (fun c => c != '=')).filterMap b64Val)

/-- The AES key constant embedded in the source
(`key_base64 = "MzJmODBmMDU0ZTAyNDFjYWM0YTVhOGQxY2ZlZTkwMDM="`). -/
def keyBase64 : String := "MzJmODBmMDU0ZTAyNDFjYWM0YTVhOGQxY2ZlZTkwMDM="

/-- `key = base64.b64decode(key_base64)`: the fixed 32-byte AES-256 key. -/
def hannaKey : List Nat := b64Decode keyBase64

namespace AES

/-- The AES S-box. -/
def sbox : List Nat := [
  0x63,0x7c,0x77,0x7b,0xf2,0x6b,0x6f,0xc5,0x30,0x01,0x67,0x2b,0xfe,0xd7,0xab,0x76,
  0xca,0x82,0xc9,0x7d,0xfa,0x59,0x47,0xf0,0xad,0xd4,0xa2,0xaf,0x9c,0xa4,0x72,0xc0,
  0xb7,0xfd,0x93,0x26,0x36,0x3f,0xf7,0xcc,0x34,0xa5,0xe5,0xf1,0x71,0xd8,0x31,0x15,
  0x04,0xc7,0x23,0xc3,0x18,0x96,0x05,0x9a,0x07,0x12,0x80,0xe2,0xeb,0x27,0xb2,0x75,
  0x09,0x83,0x2c,0x1a,0x1b,0x6e,0x5a,0xa0,0x52,0x3b,0xd6,0xb3,0x29,0xe3,0x2f,0x84,
  0x53,0xd1,0x00,0xed,0x20,0xfc,0xb1,0x5b,0x6a,0xcb,0xbe,0x39,0x4a,0x4c,0x58,0xcf,
  0xd0,0xef,0xaa,0xfb,0x43,0x4d,0x33,0x85,0x45,0xf9,0x02,0x7f,0x50,0x3c,0x9f,0xa8,
  0x51,0xa3,0x40,0x8f,0x92,0x9d,0x38,0xf5,0xbc,0xb6,0xda,0x21,0x10,0xff,0xf3,0xd2,
  0xcd,0x0c,0x13,0xec,0x5f,0x97,0x44,0x17,0xc4,0xa7,0x7e,0x3d,0x64,0x5d,0x19,0x73,
  0x60,0x81,0x4f,0xdc,0x22,0x2a,0x90,0x88,0x46,0xee,0xb8,0x14,0xde,0x5e,0x0b,0xdb,
  0xe0,0x32,0x3a,0x0a,0x49,0x06,0x24,0x5c,0xc2,0xd3,0xac,0x62,0x91,0x95,0xe4,0x79,
  0xe7,0xc8,0x37,0x6d,0x8d,0xd5,0x4e,0xa9,0x6c,0x56,0xf4,0xea,0x65,0x7a,0xae,0x08,
  0xba,0x78,0x25,0x2e,0x1c,0xa6,0xb4,0xc6,0xe8,0xdd,0x74,0x1f,0x4b,0xbd,0x8b,0x8a,
  0x70,0x3e,0xb5,0x66,0x48,0x03,0xf6,0x0e,0x61,0x35,0x57,0xb9,0x86,0xc1,0x1d,0x9e,
  0xe1,0xf8,0x98,0x11,0x69,0xd9,0x8e,0x94,0x9b,0x1e,0x87,0xe9,0xce,0x55,0x28,0xdf,
  0x8c,0xa1,0x89,0x0d,0xbf,0xe6,0x42,0x68,0x41,0x99,0x2d,0x0f,0xb0,0x54,0xbb,0x16]

/-- S-box substitution of one byte. -/
def sb (n : Nat) : Nat := sbox.getD n 0

/-- Multiplication by `x` in GF(2^8) mod `x^8+x^4+x^3+x+1`. -/
def xtime (b : Nat) : Nat :=
  if b < 128 then 2 * b else ((2 * b) % 256) ^^^ 0x1b

/-- Bytewise XOR (also used for CBC chaining and AddRoundKey). -/
def xorBytes (a b : List Nat) : List Nat := List.zipWith (fun x y => x ^^^ y) a b

/-- SubWord of the key schedule. -/
def subWord (w : List Nat) : List Nat := w.map sb

/-- RotWord of the key schedule. -/
def rotWord : List Nat → List Nat
  | a :: rest => rest ++ [a]
  | [] => []

/-- AES-256 key expansion: 32 key bytes to 60 four-byte words. -/
def keyWords (key : List Nat) : List (List Nat) :=
  let w0 := (List.range 8).map (fun i => (key.drop (4 * i)).take 4)
  let step := fun (acc : List (List Nat) × Nat) (i : Nat) =>
    let w := acc.1
    let rcon := acc.2
    let prev := w.getD (i - 1) []
    let t :=
      if i % 8 = 0 then xorBytes (subWord (rotWord prev)) [rcon, 0, 0, 0]
      else if i % 8 = 4 then subWord prev
      else prev
    let wi := xorBytes (w.getD (i - 8) []) t
    (w ++ [wi], if i % 8 = 0 then xtime rcon else rcon)
  ((List.range 52).foldl (fun acc j => step acc (j + 8)) (w0, 1)).1

/-- Round key `r` as 16 bytes. -/
def roundKey (w : List (List Nat)) (r : Nat) : List Nat := ((w.drop (4 * r)).take 4).flatten

/-- Byte `i` of a state. -/
def byteAt (s : List Nat) (i : Nat) : Nat := s.getD i 0

/-- SubBytes. -/
def subBytes (s : List Nat) : List Nat := s.map sb

/-- ShiftRows on the flat (column-major) 16-byte state. -/
def shiftRows (s : List Nat) : List Nat :=
  [byteAt s 0, byteAt s 5, byteAt s 10, byteAt s 15,
   byteAt s 4, byteAt s 9, byteAt s 14, byteAt s 3,
   byteAt s 8, byteAt s 13, byteAt s 2, byteAt s 7,
   byteAt s 12, byteAt s 1, byteAt s 6, byteAt s 11]

/-- MixColumns on one column. -/
def mixCol (a0 a1 a2 a3 : Nat) : List Nat :=
  [xtime a0 ^^^ (xtime a1 ^^^ a1) ^^^ a2 ^^^ a3,
   a0 ^^^ xtime a1 ^^^ (xtime a2 ^^^ a2) ^^^ a3,
   a0 ^^^ a1 ^^^ xtime a2 ^^^ (xtime a3 ^^^ a3),
   (xtime a0 ^^^ a0) ^^^ a1 ^^^ a2 ^^^ xtime a3]

/-- MixColumns on the flat state. -/
def mixColumns (s : List Nat) : List Nat :=
  mixCol (byteAt s 0) (byteAt s 1) (byteAt s 2) (byteAt s 3) ++
  mixCol (byteAt s 4) (byteAt s 5) (byteAt s 6) (byteAt s 7) ++
  mixCol (byteAt s 8) (byteAt s 9) (byteAt s 10) (byteAt s 11) ++
  mixCol (byteAt s 12) (byteAt s 13) (byteAt s 14) (byteAt s 15)

/-- AES-256 block encryption (14 rounds) given the expanded key words. -/
def encryptBlock (w : List (List Nat)) (b : List Nat) : List Nat :=
  let s0 := xorBytes b (roundKey w 0)
  let sMain := (List.range 13).foldl
    (fun s r => xorBytes (mixColumns (shiftRows (subBytes s))) (roundKey w (r + 1))) s0
  xorBytes (shiftRows (subBytes sMain)) (roundKey w 14)

/-- CBC-mode encryption of a (padded) byte list. -/
def cbcEnc (w : List (List Nat)) (prev : List Nat) (bs : List Nat) : List Nat :=
  if hbs : bs = [] then []
  else
    let c := encryptBlock w (xorBytes prev (bs.take 16))
    c ++ cbcEnc w c (bs.drop 16)
termination_by bs.length
decreasing_by
  simp only [List.length_drop]
  have : 0 < bs.length := List.length_pos.mpr hbs
  omega

end AES

/-- `Crypto.Util.Padding.pad(_, AES.block_size)`: PKCS#7 padding to a
16-byte multiple (always adds 1..16 bytes). -/
def pkcs7pad (bs : List Nat) : List Nat :=
  let padLen := 16 - bs.length % 16
  bs ++ List.replicate padLen padLen

/-- Lowercase hex digit. -/
def hexChar (n : Nat) : Char := "0123456789abcdef".toList.getD n '0'

/-- `bytes.hex()` of one byte: exactly two lowercase hex digits. -/
def byteHex (b : Nat) : List Char := [hexChar (b / 16 % 16), hexChar (b % 16)]

/-- `bytes.hex()` of a byte list. -/
def bytesHex (bs : List Nat) : String := String.mk ((bs.map byteHex).flatten)

/-- `string.ascii_letters + string.digits`: the 62-character IV alphabet. -/
def asciiAlnum : List Char :=
  "abcdefghijklmnopqrstuvwxyzABCDEFGHIJKLMNOPQRSTUVWXYZ0123456789".toList

/-- The expanded words of the fixed key (computed once by `AES.new`). -/
def hannaRoundKeys : List (List Nat) := AES.keyWords hannaKey

/-- `hanna_encrypt` (`__init__.py` lines 74-88, identically
`config_flow.py` lines 42-56): draw a 16-character IV from the
alphanumeric alphabet (`random.choice`, modelled as a stream `rng` of
draws, this call consuming draws `pos .. pos+15`), AES-256-CBC-encrypt the
PKCS#7-padded UTF-8 plaintext under the fixed key with the IV's bytes as
initialization vector, and return `f"{iv}:{encrypted.hex()}"` together with
the next unconsumed draw position. -/
def hannaEncrypt (rng : Nat → Nat) (pos : Nat) (plaintext : String) : String × Nat :=
  let iv : List Char := (List.range 16).map (fun j => asciiAlnum.getD (rng (pos + j) % 62) 'a')
  let ivBytes : List Nat := iv.map Char.toNat
  let padded := pkcs7pad (strBytes plaintext)
  let encrypted := AES.cbcEnc hannaRoundKeys ivBytes padded
  (String.mk iv ++ ":" ++ bytesHex encrypted, pos + 16)

/-! ### Config flow (`config_flow.py`) -/

/-- The exceptions relevant to `validate_input` and `async_step_user`. -/
inductive FlowExc where
  | invalidAuth : FlowExc
  | cannotConnect : FlowExc
  | otherExc : String → FlowExc
deriving DecidableEq, Repr

/-- The response-parsing block of `validate_input` (`config_flow.py` lines
104-132): `true` when a token is found (return the title), `false` when the
code raises `InvalidAuth` (GraphQL errors payload, missing token in either
login shape, missing login data), `.error` for any other internal
exception. -/
def validateParse (data : Json) : Except PyErr Bool := do
  -- if "errors" in response_data and response_data["errors"]:
  let hasErrKey ← pyIn data "errors"
  let errTruthy ←
    if hasErrKey then do
      let e ← pySubscript data "errors"
      pure e.truthy
    else pure false
  if errTruthy then do
    let errs ← pySubscript data "errors"
    let e0 ← pyIndexZero errs
    let _ ← pyGet e0 "message" (.str "Unknown error")
    pure false                         -- raise InvalidAuth
  else do
    let cond ←
      if data.truthy then do
        let hasData ← pyIn data "data"
        if hasData then do
          let dd ← pySubscript data "data"
          if dd.truthy then pyIn dd "login"
          else pure false
        else pure false
      else pure false
    if cond then do
      let dd ← pySubscript data "data"
      let login ← pySubscript dd "login"
      let token : Json ←
        match login with
        | .arr (x :: _) => pyGet x "token" .null
        | .arr [] => pure .null
        | .obj _ => pyGet login "token" .null
        | _ => pure .null
      if token.truthy then pure true   -- return {"title": ...}
      else pure false                  -- raise InvalidAuth
    else pure false                    -- raise InvalidAuth

/-- The `try` body of `validate_input` (`config_flow.py` lines 95-138):
which exception the code raises internally — before the enclosing
`except Exception` converts it — or the returned title. -/
def validateBody (email : String) (o : HttpOutcome) : Except FlowExc String :=
  match o with
  | .timeout => .error (.otherExc "TimeoutError")
  | .netError => .error (.otherExc "ClientError")
  | .resp status body =>
    if status = 200 then
      match body with
      | none => .error (.otherExc "JSONDecodeError")
      | some data =>
        match validateParse data with
        | .ok true => .ok ("Hanna Cloud (" ++ email ++ ")")
        | .ok false => .error .invalidAuth
        | .error e => .error (.otherExc e.msg)
    else if status = 401 then .error .invalidAuth
    else .error .cannotConnect

/-- `validate_input` as its caller sees it: the `try` body wrapped in
`except Exception as err: raise CannotConnect` (`config_flow.py` lines
139-141), which catches `InvalidAuth` and `CannotConnect` too. -/
def validateInput (email : String) (o : HttpOutcome) : Except FlowExc String :=
  match validateBody email o with
  | .ok t => .ok t
  | .error _ => .error .cannotConnect

/-- The `errors["base"]` value `ConfigFlow.async_step_user` shows for a
`validate_input` outcome (`config_flow.py` lines 155-163); `none` means the
entry is created. -/
def stepUserError (r : Except FlowExc String) : Option String :=
  match r with
  | .ok _ => none
  | .error .cannotConnect => some "cannot_connect"
  | .error .invalidAuth => some "invalid_auth"
  | .error (.otherExc _) => some "unknown"

/-! ### Helper lemmas -/

@[simp] theorem exceptBind_ok {α β : Type} (a : α) (f : α → Except PyErr β) :
    (bind (Except.ok a) f : Except PyErr β) = f a := rfl

@[simp] theorem exceptBind_err {α β : Type} (e : PyErr) (f : α → Except PyErr β) :
    (bind (Except.error e) f : Except PyErr β) = Except.error e := rfl

@[simp] theorem exceptPure_eq {α : Type} (a : α) :
    (pure a : Except PyErr α) = Except.ok a := rfl

theorem lookupField_isSome (fs : List (String × Json)) (k : String) :
    (Json.lookupField fs k).isSome = fs.any (fun p => p.1 = k) := by
  induction fs with
  | nil => rfl
  | cons p fs ih =>
    cases p with
    | mk k' v =>
      by_cases h : k' = k <;> simp [Json.lookupField, h, ih]

/-- A successful `authLoginE` extracts a truthy token from the head of the
login list or from the login object. -/
theorem authLoginE_ok_some (data tok : Json) (h : authLoginE data = .ok (some tok)) :
    tok.truthy = true ∧
    ∃ dd login, pySubscript data "data" = .ok dd ∧ pySubscript dd "login" = .ok login ∧
      ((∃ x rest, login = .arr (x :: rest) ∧ pyGet x "token" .null = .ok tok) ∨
       (∃ fs, login = .obj fs ∧ Json.lookupField fs "token" = some tok)) := by
  unfold authLoginE at h
  by_cases hd : data.truthy
  · rw [if_pos hd] at h
    rcases h1 : pyIn data "data" with e1 | hasData <;> rw [h1] at h
    · simp at h
    simp only [exceptBind_ok] at h
    cases hasData with
    | false => simp at h
    | true =>
      simp only [if_pos rfl, if_true] at h
      rcases h2 : pySubscript data "data" with e2 | dd <;> rw [h2] at h
      · simp at h
      simp only [exceptBind_ok] at h
      by_cases hddt : dd.truthy
      · rw [if_pos hddt] at h
        rcases h3 : pyIn dd "login" with e3 | c <;> rw [h3] at h
        · simp at h
        cases c with
        | false => simp at h
        | true =>
          simp only [exceptBind_ok, if_pos rfl, if_true] at h
          rcases h4 : pySubscript dd "login" with e4 | login <;> rw [h4] at h
          · simp at h
          simp only [exceptBind_ok] at h
          cases login with
          | arr xs =>
            cases xs with
            | nil => exact Option.noConfusion (Except.ok.inj h)
            | cons x rest =>
              have h' : (bind (pyGet x "token" Json.null) (fun y =>
                  if y.truthy = true then (pure (some y) : Except PyErr (Option Json))
                  else pure none)) = Except.ok (some tok) := h
              clear h
              rcases h5 : pyGet x "token" .null with e5 | tk <;> rw [h5] at h'
              · simp at h'
              simp only [exceptBind_ok] at h'
              by_cases htk : tk.truthy
              · rw [if_pos htk] at h'
                simp only [exceptPure_eq, Except.ok.injEq, Option.some.injEq] at h'
                subst h'
                exact ⟨htk, dd, .arr (x :: rest), rfl, h4, .inl ⟨x, rest, rfl, h5⟩⟩
              · rw [if_neg htk] at h'; simp at h'
          | obj fs =>
            have h' : (bind (pyGet (Json.obj fs) "token" Json.null) (fun y =>
                if y.truthy = true then (pure (some y) : Except PyErr (Option Json))
                else pure none)) = Except.ok (some tok) := h
            clear h
            rcases h5 : pyGet (Json.obj fs) "token" .null with e5 | tk <;> rw [h5] at h'
            · simp at h'
            simp only [exceptBind_ok] at h'
            by_cases htk : tk.truthy
            · rw [if_pos htk] at h'
              simp only [exceptPure_eq, Except.ok.injEq, Option.some.injEq] at h'
              subst h'
              refine ⟨htk, dd, .obj fs, rfl, h4, .inr ⟨fs, rfl, ?_⟩⟩
              simp only [pyGet, Except.ok.injEq] at h5
              rcases h6 : Json.lookupField fs "token" with _ | v <;> rw [h6] at h5
              · rw [Option.getD_none] at h5; subst h5
                simp [Json.truthy] at htk
              · rw [Option.getD_some] at h5; rw [h5]
            · rw [if_neg htk] at h'; simp at h'
          | null => exact Option.noConfusion (Except.ok.inj h)
          | bool b => exact Option.noConfusion (Except.ok.inj h)
          | num n => exact Option.noConfusion (Except.ok.inj h)
          | str s => exact Option.noConfusion (Except.ok.inj h)
      · rw [if_neg hddt] at h; simp at h
  · rw [if_neg hd] at h; simp at h

/-! ### C2: `authenticate` reports every failure through its return value -/

/-- C2: `authenticate()` never lets an exception escape (it is a total
function of the transport outcome): on every failing outcome — timeout,
transport error, non-200 status, malformed JSON, a GraphQL errors payload,
or a response without a token — it returns `false` and leaves the stored
token unchanged, and it returns `true` exactly when a token was parsed
from a 200 response and stored in the session slot. -/
theorem authenticate_reports_through_return (st : Option Json) (o : HttpOutcome) :
    ((authenticate st o).1 = false → (authenticate st o).2 = st) ∧
    ((authenticate st o).1 = true ↔
      ∃ data tok, o = .resp 200 (some data) ∧ authenticateBody data = some tok ∧
        (authenticate st o).2 = some tok) := by
  cases o with
  | timeout => simp [authenticate]
  | netError => simp [authenticate]
  | resp status body =>
    by_cases hs : status = 200
    · subst hs
      cases body with
      | none => simp [authenticate]
      | some data =>
        cases htok : authenticateBody data with
        | none => simp [authenticate, htok]
        | some tok =>
          refine ⟨by simp [authenticate, htok], ?_⟩
          simp only [authenticate, htok, if_pos rfl]
          exact ⟨fun _ => ⟨data, tok, rfl, htok, rfl⟩, fun _ => rfl⟩
    · constructor
      · intro _; simp [authenticate, hs]
      · constructor
        · intro h; exfalso
          simp [authenticate, hs] at h
        · rintro ⟨data, tok, heq, -, -⟩
          cases heq; exact absurd rfl hs

/-! ### C6: both login payload shapes are accepted -/

/-- `{"data": {"login": [{"token": "t"}]}}`. -/
def loginArrShape : Json :=
  .obj [("data", .obj [("login", .arr [.obj [("token", .str "t")]])])]

/-- `{"data": {"login": {"token": "t"}}}`. -/
def loginObjShape : Json :=
  .obj [("data", .obj [("login", .obj [("token", .str "t")])])]

/-- `{"data": {"login": []}}`. -/
def loginEmptyArr : Json := .obj [("data", .obj [("login", .arr [])])]

/-- `{"data": {"login": {}}}`. -/
def loginEmptyObj : Json := .obj [("data", .obj [("login", .obj [])])]

/-- C6: `authenticate()` accepts both login payload shapes —
`{data:{login:[{token:"t"}]}}` and `{data:{login:{token:"t"}}}` store the
token `"t"` and return `true`; `{data:{login:[]}}` and `{data:{login:{}}}`
fail (return `false`, token untouched); and in general a successful
authentication requires a truthy token extracted from the head of the login
list or from the login object, so any shape without a token fails. -/
theorem authenticate_login_shapes (st : Option Json) :
    authenticate st (.resp 200 (some loginArrShape)) = (true, some (.str "t")) ∧
    authenticate st (.resp 200 (some loginObjShape)) = (true, some (.str "t")) ∧
    authenticate st (.resp 200 (some loginEmptyArr)) = (false, st) ∧
    authenticate st (.resp 200 (some loginEmptyObj)) = (false, st) ∧
    (∀ data tok, authenticateBody data = some tok →
      tok.truthy = true ∧
      ∃ dd login, pySubscript data "data" = .ok dd ∧ pySubscript dd "login" = .ok login ∧
        ((∃ x rest, login = .arr (x :: rest) ∧ pyGet x "token" .null = .ok tok) ∨
         (∃ fs, login = .obj fs ∧ Json.lookupField fs "token" = some tok))) := by
  refine ⟨rfl, rfl, rfl, rfl, ?_⟩
  intro data tok h
  have hA : authBodyE data = .ok (some tok) := by
    unfold authenticateBody at h
    cases hA : authBodyE data with
    | error e => rw [hA] at h; exact absurd h (by simp)
    | ok r => rw [hA] at h; simp at h; rw [h]
  clear h
  unfold authBodyE at hA
  rcases h1 : pyIn data "errors" with e1 | hasErr <;> rw [h1] at hA
  · simp at hA
  simp only [exceptBind_ok] at hA
  cases hasErr with
  | false =>
    simp only [Bool.false_eq_true, if_false, exceptPure_eq, exceptBind_ok] at hA
    exact authLoginE_ok_some data tok hA
  | true =>
    simp only [if_pos rfl, if_true] at hA
    rcases h2 : pySubscript data "errors" with e2 | e <;> rw [h2] at hA
    · simp at hA
    simp only [exceptBind_ok, exceptPure_eq] at hA
    by_cases hT : e.truthy
    · exfalso
      rw [if_pos hT] at hA
      rcases h3 : pyIndexZero e with e3 | x <;> rw [h3] at hA
      · simp at hA
      simp only [exceptBind_ok] at hA
      rcases h4 : pyGet x "message" (.str "Unknown error") with e4 | m <;> rw [h4] at hA <;>
        simp at hA
    · rw [if_neg hT] at hA
      exact authLoginE_ok_some data tok hA

/-! ### Python dict semantics: lookup after overwrite-or-append insertion -/

theorem dictLookup_cons (pk : JKey) (pv : Json) (m : List (JKey × Json)) (k : JKey) :
    dictLookup ((pk, pv) :: m) k = if pk = k then some pv else dictLookup m k := by
  by_cases h : pk = k
  · rw [dictLookup, List.find?_cons_of_pos _ (by simp [h]), if_pos h]; rfl
  · rw [dictLookup, List.find?_cons_of_neg _ (by simp [h]), if_neg h]; rfl

theorem dictContains_eq_isSome (m : List (JKey × Json)) (k : JKey) :
    dictContains m k = (dictLookup m k).isSome := by
  induction m with
  | nil => rfl
  | cons p m ih =>
    obtain ⟨pk, pv⟩ := p
    rw [dictContains, List.any_cons, dictLookup_cons]
    by_cases h : pk = k
    · simp [h]
    · rw [dictContains] at ih
      simp [h, ih]

theorem dictLookup_map_overwrite (m : List (JKey × Json)) (k : JKey) (v : Json) (k' : JKey) :
    dictLookup (m.map (fun p => if p.1 == k then (k, v) else p)) k' =
      if k' = k then (dictLookup m k).map (fun _ => v) else dictLookup m k' := by
  induction m with
  | nil => by_cases hk : k' = k <;> simp [dictLookup, hk]
  | cons p m ih =>
    obtain ⟨pk, pv⟩ := p
    simp only [List.map_cons]
    by_cases hpk : pk = k
    · subst hpk
      rw [if_pos (show (pk == pk) = true by simp)]
      simp only [dictLookup_cons]
      by_cases hk' : k' = pk
      · subst hk'; simp
      · have hpk2 : ¬ pk = k' := fun h => hk' h.symm
        simp only [if_neg hk', if_neg hpk2]
        simpa [if_neg hk'] using ih
    · rw [if_neg (show ¬ (pk == k) = true by simp [hpk])]
      simp only [dictLookup_cons]
      by_cases hk'k : k' = k
      · subst hk'k
        have hpk' : ¬ pk = k' := hpk
        simp only [if_pos rfl, if_neg hpk']
        simpa [if_pos rfl] using ih
      · simp only [if_neg hk'k]
        by_cases hpk' : pk = k'
        · simp only [if_pos hpk']
        · simp only [if_neg hpk']
          simpa [if_neg hk'k] using ih

theorem dictLookup_append_new (m : List (JKey × Json)) (k : JKey) (v : Json) (k' : JKey)
    (h : dictContains m k = false) :
    dictLookup (m ++ [(k, v)]) k' = if k' = k then some v else dictLookup m k' := by
  induction m with
  | nil =>
    rw [List.nil_append, dictLookup_cons]
    by_cases hk : k = k'
    · rw [if_pos hk, if_pos hk.symm]
    · rw [if_neg hk, if_neg (fun h' => hk h'.symm)]
  | cons p m ih =>
    obtain ⟨pk, pv⟩ := p
    rw [dictContains, List.any_cons, Bool.or_eq_false_iff] at h
    obtain ⟨h1, h2⟩ := h
    rw [List.cons_append, dictLookup_cons, dictLookup_cons]
    by_cases hpk : pk = k'
    · rw [if_pos hpk, if_pos hpk]
      rw [if_neg ?hne]
      case hne =>
        intro hkk
        subst hkk
        subst hpk
        simp at h1
    · rw [if_neg hpk, if_neg hpk]
      exact ih h2

theorem dictLookup_insert (m : List (JKey × Json)) (k : JKey) (v : Json) (k' : JKey) :
    dictLookup (dictInsert m k v) k' = if k' = k then some v else dictLookup m k' := by
  unfold dictInsert
  cases hc : dictContains m k with
  | true =>
    rw [if_pos rfl, dictLookup_map_overwrite]
    by_cases hk' : k' = k
    · subst hk'
      rw [if_pos rfl, if_pos rfl]
      rw [dictContains_eq_isSome] at hc
      rcases hf : dictLookup m k' with _ | q
      · rw [hf] at hc; simp at hc
      · rfl
    · rw [if_neg hk', if_neg hk']
  | false =>
    rw [if_neg (by simp), dictLookup_append_new m k v k' hc]

theorem readingStep_ok (m0 : List (JKey × Json)) (r : Json) (m1 : List (JKey × Json))
    (h : readingStep m0 r = .ok m1) :
    ∃ k0, didKey r = some k0 ∧ m1 = dictInsert m0 k0 r := by
  unfold readingStep at h
  rcases h1 : pySubscript r "DID" with e | kj <;> rw [h1] at h
  · simp at h
  simp only [exceptBind_ok] at h
  rcases h2 : kj.toKey with _ | k0 <;> rw [h2] at h <;> simp at h
  exact ⟨k0, by simp [didKey, h1, h2], h.symm⟩

/-- Lookup in the dict built by the comprehension finds the last response
record with the given `DID`, falling back to the initial accumulator. -/
theorem foldlM_readingStep_lookup (rs : List Json) :
    ∀ (m0 m : List (JKey × Json)), rs.foldlM readingStep m0 = .ok m → ∀ k,
      dictLookup m k =
        match rs.reverse.find? (fun r => decide (didKey r = some k)) with
        | some r => some r
        | none => dictLookup m0 k := by
  induction rs with
  | nil =>
    intro m0 m h k
    simp only [List.foldlM_nil] at h
    simp at h
    subst h
    rfl
  | cons r rs ih =>
    intro m0 m h k
    rw [List.foldlM_cons] at h
    rcases hs : readingStep m0 r with e | m1 <;> rw [hs] at h
    · simp at h
    simp only [exceptBind_ok] at h
    obtain ⟨k0, hdid, hm1⟩ := readingStep_ok m0 r m1 hs
    have hih := ih m1 m h k
    rw [List.reverse_cons, List.find?_append]
    cases hf : rs.reverse.find? (fun r => decide (didKey r = some k)) with
    | some r' =>
      rw [hf] at hih
      simpa [Option.or] using hih
    | none =>
      rw [hf] at hih
      subst hm1
      rw [hih, dictLookup_insert]
      by_cases hk : k = k0
      · subst hk
        simp [List.find?, hdid, Option.or]
      · have hd : decide (k0 = k) = false := decide_eq_false (fun h => hk h.symm)
        simp [List.find?, hdid, Option.or, hd, hk]

/-- Every readings request ever issued by `get_device_readings(ids)`
carries exactly the `deviceIds` it was called with. -/
theorem getDeviceReadings_req_ids :
    (∀ ids st tr ids', Req.readings ids' ∈ (getDeviceReadings ids st tr).reqs → ids' = ids) ∧
    (∀ ids st tr ids', Req.readings ids' ∈ (getDeviceReadingsReq ids st tr).reqs → ids' = ids) := by
  have main : ∀ ids : List Json,
      (∀ st tr, ∀ ids', Req.readings ids' ∈ (getDeviceReadings ids st tr).reqs → ids' = ids) ∧
      (∀ st tr, ∀ ids', Req.readings ids' ∈ (getDeviceReadingsReq ids st tr).reqs → ids' = ids) := by
    intro ids
    have c1 : ∀ (st : Option Json), tokenFalsy st = true →
        ∀ ids', Req.readings ids' ∈ (getDeviceReadings ids st []).reqs → ids' = ids := by
      intro st h ids'
      rw [getDeviceReadings.eq_def]
      simp [h]
    have c2 : ∀ (st : Option Json), tokenFalsy st = true →
        ∀ (o : HttpOutcome) (rest : List HttpOutcome),
          (authenticate st o).1 = true →
          (∀ ids', Req.readings ids' ∈ (getDeviceReadingsReq ids (authenticate st o).2 rest).reqs →
            ids' = ids) →
          ∀ ids', Req.readings ids' ∈ (getDeviceReadings ids st (o :: rest)).reqs → ids' = ids := by
      intro st h o rest ha ih ids'
      rw [getDeviceReadings.eq_def]
      simp only [h, ha, if_true]
      intro hm
      simp at hm
      exact ih ids' hm
    have c3 : ∀ (st : Option Json), tokenFalsy st = true →
        ∀ (o : HttpOutcome) (rest : List HttpOutcome),
          ¬(authenticate st o).1 = true →
          ∀ ids', Req.readings ids' ∈ (getDeviceReadings ids st (o :: rest)).reqs → ids' = ids := by
      intro st h o rest ha ids'
      rw [getDeviceReadings.eq_def]
      simp [h, ha]
    have c4 : ∀ (st : Option Json) (tr : List HttpOutcome),
        ¬tokenFalsy st = true →
        (∀ ids', Req.readings ids' ∈ (getDeviceReadingsReq ids st tr).reqs → ids' = ids) →
        ∀ ids', Req.readings ids' ∈ (getDeviceReadings ids st tr).reqs → ids' = ids := by
      intro st tr h ih ids'
      rw [getDeviceReadings.eq_def]
      simp only [h, if_false]
      exact ih ids'
    have c5 : ∀ (st : Option Json),
        ∀ ids', Req.readings ids' ∈ (getDeviceReadingsReq ids st []).reqs → ids' = ids := by
      intro st ids'
      rw [getDeviceReadingsReq.eq_def]
      simp
    have c6 : ∀ (st : Option Json) (rest : List HttpOutcome),
        ∀ ids', Req.readings ids' ∈ (getDeviceReadingsReq ids st (.timeout :: rest)).reqs →
          ids' = ids := by
      intro st rest ids'
      rw [getDeviceReadingsReq.eq_def]
      simp
    have c7 : ∀ (st : Option Json) (rest : List HttpOutcome),
        ∀ ids', Req.readings ids' ∈ (getDeviceReadingsReq ids st (.netError :: rest)).reqs →
          ids' = ids := by
      intro st rest ids'
      rw [getDeviceReadingsReq.eq_def]
      simp
    have c8 : ∀ (st : Option Json) (rest : List HttpOutcome),
        ∀ ids', Req.readings ids' ∈ (getDeviceReadingsReq ids st (.resp 200 none :: rest)).reqs →
          ids' = ids := by
      intro st rest ids'
      rw [getDeviceReadingsReq.eq_def]
      simp
    have c9 : ∀ (st : Option Json) (rest : List HttpOutcome) (data : Json),
        ∀ ids',
          Req.readings ids' ∈ (getDeviceReadingsReq ids st (.resp 200 (some data) :: rest)).reqs →
          ids' = ids := by
      intro st rest data ids'
      rw [getDeviceReadingsReq.eq_def]
      simp only [if_pos]
      unfold readings200
      split <;> simp
    have c10 : ∀ (st : Option Json) (status : Nat) (body : Option Json),
        ¬status = 200 → status = 401 ∨ status = 403 →
        ∀ ids', Req.readings ids' ∈ (getDeviceReadingsReq ids st [.resp status body]).reqs →
          ids' = ids := by
      intro st status body h200 h401 ids'
      rw [getDeviceReadingsReq.eq_def]
      simp [h200, h401]
    have c11 : ∀ (st : Option Json) (status : Nat) (body : Option Json),
        ¬status = 200 → status = 401 ∨ status = 403 →
        ∀ (o : HttpOutcome) (rest : List HttpOutcome),
          (authenticate none o).1 = true →
          (∀ ids', Req.readings ids' ∈ (getDeviceReadings ids (authenticate none o).2 rest).reqs →
            ids' = ids) →
          ∀ ids',
            Req.readings ids' ∈
              (getDeviceReadingsReq ids st (.resp status body :: o :: rest)).reqs →
            ids' = ids := by
      intro st status body h200 h401 o rest ha ih ids'
      rw [getDeviceReadingsReq.eq_def]
      simp only [h200, h401, ha, if_true, if_false]
      intro hm
      simp at hm
      rcases hm with hm | hm
      · exact hm
      · exact ih ids' hm
    have c12 : ∀ (st : Option Json) (status : Nat) (body : Option Json),
        ¬status = 200 → status = 401 ∨ status = 403 →
        ∀ (o : HttpOutcome) (rest : List HttpOutcome),
          ¬(authenticate none o).1 = true →
          ∀ ids',
            Req.readings ids' ∈
              (getDeviceReadingsReq ids st (.resp status body :: o :: rest)).reqs →
            ids' = ids := by
      intro st status body h200 h401 o rest ha ids'
      rw [getDeviceReadingsReq.eq_def]
      simp [h200, h401, ha]
    have c13 : ∀ (st : Option Json) (status : Nat) (body : Option Json)
        (rest : List HttpOutcome),
        ¬status = 200 → ¬(status = 401 ∨ status = 403) →
        ∀ ids',
          Req.readings ids' ∈ (getDeviceReadingsReq ids st (.resp status body :: rest)).reqs →
          ids' = ids := by
      intro st status body rest h200 h401 ids'
      rw [getDeviceReadingsReq.eq_def]
      simp [h200, h401]
    refine ⟨?_, ?_⟩
    · intro st tr
      exact getDeviceReadings.induct ids
        (fun st tr =>
          ∀ ids', Req.readings ids' ∈ (getDeviceReadings ids st tr).reqs → ids' = ids)
        (fun st tr =>
          ∀ ids', Req.readings ids' ∈ (getDeviceReadingsReq ids st tr).reqs → ids' = ids)
        c1 c2 c3 c4 c5 c6 c7 c8 c9 c10 c11 c12 c13 st tr
    · intro st tr
      exact getDeviceReadingsReq.induct ids
        (fun st tr =>
          ∀ ids', Req.readings ids' ∈ (getDeviceReadings ids st tr).reqs → ids' = ids)
        (fun st tr =>
          ∀ ids', Req.readings ids' ∈ (getDeviceReadingsReq ids st tr).reqs → ids' = ids)
        c1 c2 c3 c4 c5 c6 c7 c8 c9 c10 c11 c12 c13 st tr
  exact ⟨fun ids st tr => (main ids).1 st tr, fun ids st tr => (main ids).2 st tr⟩

/-! ### C5: the readings mapping keys on DID with last-wins -/

/-- Reading record `{"DID": "B", "seq": 1}` (first occurrence of B). -/
def rB1 : Json := .obj [("DID", .str "B"), ("seq", .num 1)]

/-- Reading record `{"DID": "A", "seq": 2}`. -/
def rA2 : Json := .obj [("DID", .str "A"), ("seq", .num 2)]

/-- Reading record `{"DID": "B", "seq": 3}` (last occurrence of B). -/
def rB3 : Json := .obj [("DID", .str "B"), ("seq", .num 3)]

/-- The readings response `{"data": {"lastDeviceReadings": [B, A, B]}}`. -/
def readingsRespBAB : Json :=
  .obj [("data", .obj [("lastDeviceReadings", .arr [rB1, rA2, rB3])])]

/-- C5: `getDeviceReadings` keys each returned record on its `DID` with
last-wins on duplicates: in general, looking up `k` in the built mapping
yields the last response record whose `DID` is `k`; and on the response
`[{DID:"B"},{DID:"A"},{DID:"B"}]` (requested for devices A and B) the
mapping has exactly the two keys `B` and `A`, with `B` holding the last
occurrence's record. -/
theorem readings_keyed_last_wins :
    (∀ rs m, buildReadingsDict rs = .ok m → ∀ k,
      dictLookup m k = rs.reverse.find? (fun r => decide (didKey r = some k))) ∧
    (getDeviceReadings [.str "A", .str "B"] (some (.str "t"))
        [.resp 200 (some readingsRespBAB)]).res =
      .ok [(JKey.str "B", rB3), (JKey.str "A", rA2)] ∧
    ([(JKey.str "B", rB3), (JKey.str "A", rA2)].map Prod.fst = [JKey.str "B", JKey.str "A"]) ∧
    dictLookup [(JKey.str "B", rB3), (JKey.str "A", rA2)] (.str "B") = some rB3 ∧
    dictLookup [(JKey.str "B", rB3), (JKey.str "A", rA2)] (.str "A") = some rA2 := by
  refine ⟨?_, ?_, rfl, rfl, rfl⟩
  · intro rs m h k
    have := foldlM_readingStep_lookup rs [] m h k
    rw [this]
    cases rs.reverse.find? (fun r => decide (didKey r = some k)) <;> rfl
  · rw [getDeviceReadings]
    rw [if_neg (by decide : ¬ tokenFalsy (some (Json.str "t")) = true)]
    rw [getDeviceReadingsReq]
    rfl

/-! ### C10: `validate_input` converts every rejection to `CannotConnect` -/

/-- A GraphQL errors payload `{"errors": [{"message": "bad"}]}`. -/
def errorsPayload : Json := .obj [("errors", .arr [.obj [("message", .str "bad")]])]

/-- C10: every authentication-rejection path inside `validate_input` — a
GraphQL errors payload, a missing token in either login shape, or an HTTP
401 — raises `InvalidAuth` inside the `try` (witnessed by `validateBody`),
but the enclosing `except Exception` re-raises `CannotConnect`, so
`validate_input` never raises `InvalidAuth` to its caller and
`async_step_user` can never show the `invalid_auth` error. -/
theorem validateInput_never_invalid_auth (email : String) (o : HttpOutcome) :
    ((∃ t, validateInput email o = .ok t) ∨ validateInput email o = .error .cannotConnect) ∧
    validateInput email o ≠ .error .invalidAuth ∧
    stepUserError (validateInput email o) ≠ some "invalid_auth" ∧
    validateBody email (.resp 200 (some errorsPayload)) = .error .invalidAuth ∧
    validateInput email (.resp 200 (some errorsPayload)) = .error .cannotConnect ∧
    validateBody email (.resp 200 (some loginEmptyArr)) = .error .invalidAuth ∧
    validateInput email (.resp 200 (some loginEmptyArr)) = .error .cannotConnect ∧
    validateBody email (.resp 200 (some loginEmptyObj)) = .error .invalidAuth ∧
    validateBody email (.resp 401 none) = .error .invalidAuth ∧
    validateInput email (.resp 401 none) = .error .cannotConnect := by
  have hshape : (∃ t, validateInput email o = .ok t) ∨
      validateInput email o = .error .cannotConnect := by
    unfold validateInput
    cases hb : validateBody email o with
    | ok t => exact .inl ⟨t, rfl⟩
    | error e => exact .inr rfl
  refine ⟨hshape, ?_, ?_, rfl, rfl, rfl, rfl, rfl, rfl, rfl⟩
  · rcases hshape with ⟨t, ht⟩ | hcc
    · rw [ht]; simp
    · rw [hcc]; simp
  · rcases hshape with ⟨t, ht⟩ | hcc
    · rw [ht]; simp [stepUserError]
    · rw [hcc]; simp [stepUserError]

/-! ### Request-log lemmas: which HTTP requests each call can issue -/

/-- `get_devices` never issues a readings request (in either phase). -/
theorem getDevices_no_readings :
    (∀ st tr ids, Req.readings ids ∉ (getDevices st tr).reqs) ∧
    (∀ st tr ids, Req.readings ids ∉ (getDevicesReq st tr).reqs) := by
  have c1 : ∀ (st : Option Json), tokenFalsy st = true →
      ∀ ids, Req.readings ids ∉ (getDevices st []).reqs := by
    intro st h ids
    rw [getDevices.eq_def]
    simp [h]
  have c2 : ∀ (st : Option Json), tokenFalsy st = true →
      ∀ (o : HttpOutcome) (rest : List HttpOutcome),
        (authenticate st o).1 = true →
        (∀ ids, Req.readings ids ∉ (getDevicesReq (authenticate st o).2 rest).reqs) →
        ∀ ids, Req.readings ids ∉ (getDevices st (o :: rest)).reqs := by
    intro st h o rest ha ih ids
    rw [getDevices.eq_def]
    simp [h, ha, ih ids]
  have c3 : ∀ (st : Option Json), tokenFalsy st = true →
      ∀ (o : HttpOutcome) (rest : List HttpOutcome),
        ¬(authenticate st o).1 = true →
        ∀ ids, Req.readings ids ∉ (getDevices st (o :: rest)).reqs := by
    intro st h o rest ha ids
    rw [getDevices.eq_def]
    simp [h, ha]
  have c4 : ∀ (st : Option Json) (tr : List HttpOutcome), ¬tokenFalsy st = true →
      (∀ ids, Req.readings ids ∉ (getDevicesReq st tr).reqs) →
      ∀ ids, Req.readings ids ∉ (getDevices st tr).reqs := by
    intro st tr h ih ids
    rw [getDevices.eq_def]
    simp [h, ih ids]
  have c5 : ∀ (st : Option Json), ∀ ids, Req.readings ids ∉ (getDevicesReq st []).reqs := by
    intro st ids
    rw [getDevicesReq.eq_def]
    simp
  have c6 : ∀ (st : Option Json) (rest : List HttpOutcome),
      ∀ ids, Req.readings ids ∉ (getDevicesReq st (.timeout :: rest)).reqs := by
    intro st rest ids
    rw [getDevicesReq.eq_def]
    simp
  have c7 : ∀ (st : Option Json) (rest : List HttpOutcome),
      ∀ ids, Req.readings ids ∉ (getDevicesReq st (.netError :: rest)).reqs := by
    intro st rest ids
    rw [getDevicesReq.eq_def]
    simp
  have c8 : ∀ (st : Option Json) (rest : List HttpOutcome),
      ∀ ids, Req.readings ids ∉ (getDevicesReq st (.resp 200 none :: rest)).reqs := by
    intro st rest ids
    rw [getDevicesReq.eq_def]
    simp
  have c9 : ∀ (st : Option Json) (rest : List HttpOutcome) (data : Json),
      ∀ ids, Req.readings ids ∉ (getDevicesReq st (.resp 200 (some data) :: rest)).reqs := by
    intro st rest data ids
    rw [getDevicesReq.eq_def]
    simp
  have c10 : ∀ (st : Option Json) (status : Nat) (body : Option Json),
      ¬status = 200 → status = 401 ∨ status = 403 →
      ∀ ids, Req.readings ids ∉ (getDevicesReq st [.resp status body]).reqs := by
    intro st status body h200 h401 ids
    rw [getDevicesReq.eq_def]
    simp [h200, h401]
  have c11 : ∀ (st : Option Json) (status : Nat) (body : Option Json),
      ¬status = 200 → status = 401 ∨ status = 403 →
      ∀ (o : HttpOutcome) (rest : List HttpOutcome),
        (authenticate none o).1 = true →
        (∀ ids, Req.readings ids ∉ (getDevices (authenticate none o).2 rest).reqs) →
        ∀ ids, Req.readings ids ∉ (getDevicesReq st (.resp status body :: o :: rest)).reqs := by
    intro st status body h200 h401 o rest ha ih ids
    rw [getDevicesReq.eq_def]
    simp [h200, h401, ha, ih ids]
  have c12 : ∀ (st : Option Json) (status : Nat) (body : Option Json),
      ¬status = 200 → status = 401 ∨ status = 403 →
      ∀ (o : HttpOutcome) (rest : List HttpOutcome),
        ¬(authenticate none o).1 = true →
        ∀ ids, Req.readings ids ∉ (getDevicesReq st (.resp status body :: o :: rest)).reqs := by
    intro st status body h200 h401 o rest ha ids
    rw [getDevicesReq.eq_def]
    simp [h200, h401, ha]
  have c13 : ∀ (st : Option Json) (status : Nat) (body : Option Json) (rest : List HttpOutcome),
      ¬status = 200 → ¬(status = 401 ∨ status = 403) →
      ∀ ids, Req.readings ids ∉ (getDevicesReq st (.resp status body :: rest)).reqs := by
    intro st status body rest h200 h401 ids
    rw [getDevicesReq.eq_def]
    simp [h200, h401]
  refine ⟨?_, ?_⟩
  · intro st tr ids
    exact getDevices.induct (fun st tr => ∀ ids, Req.readings ids ∉ (getDevices st tr).reqs)
      (fun st tr => ∀ ids, Req.readings ids ∉ (getDevicesReq st tr).reqs)
      c1 c2 c3 c4 c5 c6 c7 c8 c9 c10 c11 c12 c13 st tr ids
  · intro st tr ids
    exact getDevicesReq.induct (fun st tr => ∀ ids, Req.readings ids ∉ (getDevices st tr).reqs)
      (fun st tr => ∀ ids, Req.readings ids ∉ (getDevicesReq st tr).reqs)
      c1 c2 c3 c4 c5 c6 c7 c8 c9 c10 c11 c12 c13 st tr ids

/-! ### C8: an empty device list short-circuits the cycle -/

/-- The devices response `{"data": {"devices": []}}`. -/
def devicesEmptyResp : Json := .obj [("data", .obj [("devices", .arr [])])]

/-- C8: when `getDevices()` returns the empty list, `_async_update_data`
returns `{"devices": [], "readings": {}}`, issues no readings request
(`getDeviceReadings` is not called), and the refresh publishes that result
and reports success. -/
theorem empty_devices_short_circuit (st : Option Json) (tr : List HttpOutcome)
    (h : (getDevices st tr).res = .ok (Json.arr [])) :
    (coordUpdate st tr).res = .ok ⟨Json.arr [], []⟩ ∧
    (coordUpdate st tr).reqs = (getDevices st tr).reqs ∧
    (∀ ids, Req.readings ids ∉ (coordUpdate st tr).reqs) ∧
    (∀ cs : CoordState, cs.token = st →
      (refreshStep cs tr).1.published = some ⟨Json.arr [], []⟩ ∧
      (refreshStep cs tr).2.1 = none) := by
  have hc : coordUpdate st tr =
      ⟨.ok ⟨Json.arr [], []⟩, (getDevices st tr).token, (getDevices st tr).rest,
        (getDevices st tr).reqs⟩ := by
    simp only [coordUpdate]
    rw [h]
    simp [Json.truthy]
  refine ⟨by rw [hc], by rw [hc], ?_, ?_⟩
  · intro ids
    rw [hc]
    exact getDevices_no_readings.1 st tr ids
  · intro cs hcs
    unfold refreshStep
    rw [hcs, hc]
    exact ⟨rfl, rfl⟩

/-- C8 witness: a concrete empty-fleet cycle. -/
theorem empty_devices_short_circuit_witness :
    (coordUpdate (some (Json.str "t")) [.resp 200 (some devicesEmptyResp)]).res =
      .ok ⟨Json.arr [], []⟩ :=
  (empty_devices_short_circuit (some (Json.str "t")) [.resp 200 (some devicesEmptyResp)]
    (by
      rw [getDevices.eq_def, if_neg (by decide : ¬ tokenFalsy (some (Json.str "t")) = true),
        getDevicesReq.eq_def]
      rfl)).1

/-! ### C4: readings keys versus the devices of the same cycle -/

/-- The device record `{"DID": "A"}`. -/
def deviceA : Json := .obj [("DID", .str "A")]

/-- The devices response `{"data": {"devices": [{"DID": "A"}]}}`. -/
def devicesRespA : Json := .obj [("data", .obj [("devices", .arr [deviceA])])]

/-- A readings record for a device that was never retrieved:
`{"DID": "X"}`. -/
def readingX : Json := .obj [("DID", .str "X")]

/-- The readings response `{"data": {"lastDeviceReadings": [{"DID": "X"}]}}`. -/
def readingsRespX : Json := .obj [("data", .obj [("lastDeviceReadings", .arr [readingX])])]

/-- C4 counterexample: a successful cycle whose published readings mapping
has the key `X`, while the published devices list of the same cycle holds
only the device `A` — the readings keys come from the server's response
records, which the code does not filter against the requested ids. -/
theorem readings_key_outside_devices :
    (coordUpdate (some (.str "t"))
        [.resp 200 (some devicesRespA), .resp 200 (some readingsRespX)]).res =
      .ok ⟨.arr [deviceA], [(JKey.str "X", readingX)]⟩ ∧
    deviceIdsOf (.arr [deviceA]) = .ok [.str "A"] ∧
    [(JKey.str "X", readingX)].map Prod.fst = [JKey.str "X"] ∧
    JKey.str "X" ∉ [Json.str "A"].filterMap Json.toKey := by
  have h1 : getDevices (some (Json.str "t"))
      [.resp 200 (some devicesRespA), .resp 200 (some readingsRespX)] =
      ⟨.ok (.arr [deviceA]), some (.str "t"), [.resp 200 (some readingsRespX)], [.devices]⟩ := by
    rw [getDevices.eq_def, if_neg (by decide : ¬ tokenFalsy (some (Json.str "t")) = true),
      getDevicesReq.eq_def]
    rfl
  have h2 : getDeviceReadings [Json.str "A"] (some (Json.str "t"))
      [.resp 200 (some readingsRespX)] =
      ⟨.ok [(JKey.str "X", readingX)], some (.str "t"), [], [.readings [Json.str "A"]]⟩ := by
    rw [getDeviceReadings.eq_def, if_neg (by decide : ¬ tokenFalsy (some (Json.str "t")) = true),
      getDeviceReadingsReq.eq_def]
    rfl
  refine ⟨?_, rfl, rfl, by decide⟩
  simp only [coordUpdate]
  rw [h1]
  simp only [Json.truthy]
  rw [show deviceIdsOf (Json.arr [deviceA]) = .ok [Json.str "A"] from rfl]
  simp only [h2]
  simp

/-- C4 amended: the `deviceIds` of every readings request issued in a cycle
are exactly the DIDs extracted from the devices just retrieved; every entry
of the built readings mapping is a response record keyed by its own DID; so
the published keys are a subset of the devices' DIDs exactly when the
server's response records carry only such DIDs. -/
theorem readings_keys_from_response (st : Option Json) (tr : List HttpOutcome) :
    (∀ ids', Req.readings ids' ∈ (coordUpdate st tr).reqs →
      ∃ devices, (getDevices st tr).res = .ok devices ∧ devices.truthy = true ∧
        deviceIdsOf devices = .ok ids') ∧
    (∀ rs m, buildReadingsDict rs = .ok m →
      ∀ kv ∈ m, ∃ r ∈ rs, didKey r = some kv.1 ∧ kv.2 = r) ∧
    (∀ rs m (allowed : List JKey), buildReadingsDict rs = .ok m →
      (∀ r ∈ rs, ∀ hk, didKey r = some hk → hk ∈ allowed) →
      ∀ kv ∈ m, kv.1 ∈ allowed) := by
  have hmem : ∀ rs : List Json, ∀ (m0 m : List (JKey × Json)),
      rs.foldlM readingStep m0 = .ok m →
      ∀ kv ∈ m, kv ∈ m0 ∨ ∃ r ∈ rs, didKey r = some kv.1 ∧ kv.2 = r := by
    intro rs
    induction rs with
    | nil =>
      intro m0 m h kv hkv
      simp only [List.foldlM_nil] at h
      simp at h
      subst h
      exact .inl hkv
    | cons r rs ih =>
      intro m0 m h kv hkv
      rw [List.foldlM_cons] at h
      rcases hs : readingStep m0 r with e | m1 <;> rw [hs] at h
      · simp at h
      simp only [exceptBind_ok] at h
      obtain ⟨k0, hdid, hm1⟩ := readingStep_ok m0 r m1 hs
      rcases ih m1 m h kv hkv with hin | ⟨r', hr', hd', hv'⟩
      · subst hm1
        unfold dictInsert at hin
        split at hin
        · rcases List.mem_map.mp hin with ⟨p, hp, hfp⟩
          by_cases hpk : (p.1 == k0) = true
          · rw [if_pos hpk] at hfp
            subst hfp
            exact .inr ⟨r, List.mem_cons_self r rs, hdid, rfl⟩
          · rw [if_neg hpk] at hfp
            subst hfp
            exact .inl hp
        · rcases List.mem_append.mp hin with hp | hp
          · exact .inl hp
          · simp at hp
            subst hp
            exact .inr ⟨r, List.mem_cons_self r rs, hdid, rfl⟩
      · exact .inr ⟨r', List.mem_cons_of_mem r hr', hd', hv'⟩
  have hreqs : (coordUpdate st tr).reqs = (getDevices st tr).reqs ∨
      ∃ devices ids, (getDevices st tr).res = .ok devices ∧ devices.truthy = true ∧
        deviceIdsOf devices = .ok ids ∧
        (coordUpdate st tr).reqs = (getDevices st tr).reqs ++
          (getDeviceReadings ids (getDevices st tr).token (getDevices st tr).rest).reqs := by
    simp only [coordUpdate]
    split
    next e hv => exact .inl rfl
    next devices hv =>
      split
      next ht => exact .inl rfl
      next ht =>
        split
        next e hids => exact .inl rfl
        next ids hids =>
          split
          next e2 hr2 =>
            exact .inr ⟨devices, ids, hv, by simpa using ht, hids, rfl⟩
          next rd hr2 =>
            exact .inr ⟨devices, ids, hv, by simpa using ht, hids, rfl⟩
  refine ⟨?_, ?_, ?_⟩
  · intro ids' hreq
    rcases hreqs with hq | ⟨devices, ids, hv, ht, hids, hq⟩
    · rw [hq] at hreq
      exact absurd hreq (getDevices_no_readings.1 st tr ids')
    · rw [hq] at hreq
      rcases List.mem_append.mp hreq with hin | hin
      · exact absurd hin (getDevices_no_readings.1 st tr ids')
      · have := getDeviceReadings_req_ids.1 ids (getDevices st tr).token
          (getDevices st tr).rest ids' hin
        subst this
        exact ⟨devices, hv, ht, hids⟩
  · intro rs m h kv hkv
    rcases hmem rs [] m h kv hkv with hin | hr
    · simp at hin
    · exact hr
  · intro rs m allowed h hallowed kv hkv
    rcases hmem rs [] m h kv hkv with hin | ⟨r, hr, hd, -⟩
    · simp at hin
    · exact hallowed r hr kv.1 hd

/-! ### C1: the 401/403 re-authentication retry recursion -/

/-- Unfolding of `get_devices` at a 401/403 response with a truthy token:
clear the token, re-authenticate, and either retry recursively or fail. -/
theorem getDevices_401_step (st : Option Json) (htf : ¬ tokenFalsy st = true)
    (status : Nat) (h200 : ¬ status = 200) (h401 : status = 401 ∨ status = 403)
    (body : Option Json) (a : HttpOutcome) (rest : List HttpOutcome) :
    getDevices st (.resp status body :: a :: rest) =
      if (authenticate none a).1 then
        ⟨(getDevices (authenticate none a).2 rest).res,
         (getDevices (authenticate none a).2 rest).token,
         (getDevices (authenticate none a).2 rest).rest,
         .devices :: .auth :: (getDevices (authenticate none a).2 rest).reqs⟩
      else
        ⟨.error (.updateFailed "Re-authentication failed"), (authenticate none a).2, rest,
          [.devices, .auth]⟩ := by
  rw [getDevices.eq_def, if_neg htf, getDevicesReq.eq_def]
  simp only [h200, h401, if_true, if_false]

/-- The same unfolding for `get_device_readings`. -/
theorem getDeviceReadings_401_step (ids : List Json) (st : Option Json)
    (htf : ¬ tokenFalsy st = true) (status : Nat) (h200 : ¬ status = 200)
    (h401 : status = 401 ∨ status = 403) (body : Option Json) (a : HttpOutcome)
    (rest : List HttpOutcome) :
    getDeviceReadings ids st (.resp status body :: a :: rest) =
      if (authenticate none a).1 then
        ⟨(getDeviceReadings ids (authenticate none a).2 rest).res,
         (getDeviceReadings ids (authenticate none a).2 rest).token,
         (getDeviceReadings ids (authenticate none a).2 rest).rest,
         .readings ids :: .auth ::
           (getDeviceReadings ids (authenticate none a).2 rest).reqs⟩
      else
        ⟨.error (.updateFailed "Re-authentication failed"), (authenticate none a).2, rest,
          [.readings ids, .auth]⟩ := by
  rw [getDeviceReadings.eq_def, if_neg htf, getDeviceReadingsReq.eq_def]
  simp only [h200, h401, if_true, if_false]

/-- A login response that makes re-authentication succeed with token
`"t"`. -/
def authOkOut : HttpOutcome := .resp 200 (some loginArrShape)

/-- C1 counterexample: with the stored token `"t0"`, a transport returning
401, then a successful login, then 401 again, then a successful login,
then 200, `getDevices()` issues a fifth request and returns the payload —
after the second consecutive 401 the call neither fails with
`UpdateFailed` nor stops issuing requests, contradicting the
at-most-once-retry claim. -/
theorem second_401_retries_again :
    (getDevices (some (.str "t0"))
        [.resp 401 none, authOkOut, .resp 401 none, authOkOut,
         .resp 200 (some devicesRespA)]).res = .ok (.arr [deviceA]) ∧
    (getDevices (some (.str "t0"))
        [.resp 401 none, authOkOut, .resp 401 none, authOkOut,
         .resp 200 (some devicesRespA)]).reqs =
      [.devices, .auth, .devices, .auth, .devices] := by
  have hauth : authenticate none authOkOut = (true, some (Json.str "t")) := rfl
  have base : getDevices (some (Json.str "t")) [.resp 200 (some devicesRespA)] =
      ⟨.ok (.arr [deviceA]), some (.str "t"), [], [.devices]⟩ := by
    rw [getDevices.eq_def, if_neg (by decide : ¬ tokenFalsy (some (Json.str "t")) = true),
      getDevicesReq.eq_def]
    rfl
  have step2 : getDevices (some (Json.str "t"))
      [.resp 401 none, authOkOut, .resp 200 (some devicesRespA)] =
      ⟨.ok (.arr [deviceA]), some (.str "t"), [], [.devices, .auth, .devices]⟩ := by
    rw [getDevices_401_step (some (Json.str "t")) (by decide) 401 (by decide) (Or.inl rfl)
      none authOkOut [.resp 200 (some devicesRespA)]]
    rw [hauth]
    simp [base]
  have step1 : getDevices (some (Json.str "t0"))
      [.resp 401 none, authOkOut, .resp 401 none, authOkOut,
       .resp 200 (some devicesRespA)] =
      ⟨.ok (.arr [deviceA]), some (.str "t"), [],
        [.devices, .auth, .devices, .auth, .devices]⟩ := by
    rw [getDevices_401_step (some (Json.str "t0")) (by decide) 401 (by decide) (Or.inl rfl)
      none authOkOut [.resp 401 none, authOkOut, .resp 200 (some devicesRespA)]]
    rw [hauth]
    simp [step2]
  rw [step1]
  exact ⟨rfl, rfl⟩

/-- C1 amended: on a 401/403 response (with a truthy token held), the call
clears the token and re-authenticates; if re-authentication fails it fails
with `UpdateFailed("Re-authentication failed")` without issuing further
requests; if re-authentication succeeds it retries via a recursive call —
with no retry bound, so consecutive 401/403 responses keep re-authenticating
and retrying as long as re-authentication succeeds.  The same holds for
`getDeviceReadings`. -/
theorem retry_unbounded (tok : Json) (htok : tok.truthy = true) (status : Nat)
    (hst : status = 401 ∨ status = 403) (body : Option Json) (a : HttpOutcome)
    (rest : List HttpOutcome) :
    (getDevices (some tok) (.resp status body :: a :: rest) =
      if (authenticate none a).1 then
        ⟨(getDevices (authenticate none a).2 rest).res,
         (getDevices (authenticate none a).2 rest).token,
         (getDevices (authenticate none a).2 rest).rest,
         .devices :: .auth :: (getDevices (authenticate none a).2 rest).reqs⟩
      else
        ⟨.error (.updateFailed "Re-authentication failed"), (authenticate none a).2, rest,
          [.devices, .auth]⟩) ∧
    (∀ ids, getDeviceReadings ids (some tok) (.resp status body :: a :: rest) =
      if (authenticate none a).1 then
        ⟨(getDeviceReadings ids (authenticate none a).2 rest).res,
         (getDeviceReadings ids (authenticate none a).2 rest).token,
         (getDeviceReadings ids (authenticate none a).2 rest).rest,
         .readings ids :: .auth ::
           (getDeviceReadings ids (authenticate none a).2 rest).reqs⟩
      else
        ⟨.error (.updateFailed "Re-authentication failed"), (authenticate none a).2, rest,
          [.readings ids, .auth]⟩) := by
  have h200 : ¬ status = 200 := by rcases hst with h | h <;> omega
  have htf : ¬ tokenFalsy (some tok) = true := by simp [tokenFalsy, htok]
  exact ⟨getDevices_401_step (some tok) htf status h200 hst body a rest,
    fun ids => getDeviceReadings_401_step ids (some tok) htf status h200 hst body a rest⟩

/-- C1 amended witness: the retry equation at a concrete 401 with a
successful re-authentication. -/
theorem retry_unbounded_witness :
    getDevices (some (Json.str "t0")) [.resp 401 none, authOkOut, .resp 401 none] =
      (if (authenticate none authOkOut).1 then
        ⟨(getDevices (authenticate none authOkOut).2 [.resp 401 none]).res,
         (getDevices (authenticate none authOkOut).2 [.resp 401 none]).token,
         (getDevices (authenticate none authOkOut).2 [.resp 401 none]).rest,
         .devices :: .auth ::
           (getDevices (authenticate none authOkOut).2 [.resp 401 none]).reqs⟩
      else
        ⟨.error (.updateFailed "Re-authentication failed"), (authenticate none authOkOut).2,
          [.resp 401 none], [.devices, .auth]⟩) :=
  (retry_unbounded (.str "t0") rfl 401 (Or.inl rfl) none authOkOut [.resp 401 none]).1

/-! ### C3 and C9: failure wrapping, publishing and the first cycle -/

/-- `refreshStep` either publishes the returned `PollResult` (no error) or
records the error and keeps the previously published data. -/
theorem refreshStep_cases (cs : CoordState) (tr : List HttpOutcome) :
    (∃ pr, (coordUpdate cs.token tr).res = .ok pr ∧
      refreshStep cs tr =
        (⟨(coordUpdate cs.token tr).token, some pr⟩, none, (coordUpdate cs.token tr).rest)) ∨
    (∃ msg, (coordUpdate cs.token tr).res = .error msg ∧
      refreshStep cs tr =
        (⟨(coordUpdate cs.token tr).token, cs.published⟩, some msg,
          (coordUpdate cs.token tr).rest)) := by
  simp only [refreshStep]
  rcases h : (coordUpdate cs.token tr).res with msg | pr
  · exact .inr ⟨msg, rfl, rfl⟩
  · exact .inl ⟨pr, rfl, rfl⟩

/-- A failed refresh leaves the previously published `PollResult` in
place. -/
theorem refreshStep_failure_keeps_published (cs : CoordState) (tr : List HttpOutcome)
    (msg : String) (h : (refreshStep cs tr).2.1 = some msg) :
    (refreshStep cs tr).1.published = cs.published := by
  rcases refreshStep_cases cs tr with ⟨pr, -, heq⟩ | ⟨msg', -, heq⟩ <;> rw [heq] at h ⊢ <;>
    first
    | rfl
    | simp at h

/-- C3: every exception raised inside a refresh cycle by `getDevices` or
`getDeviceReadings` — already an `UpdateFailed` or not — surfaces as
exactly one `UpdateFailed` of the form
`"Error communicating with API: {cause}"`, and a failed cycle leaves the
previously published `PollResult` unchanged. -/
theorem update_failure_wrapped (st : Option Json) (tr : List HttpOutcome) :
    (∀ msg, (coordUpdate st tr).res = .error msg → ∃ e : PyErr, msg = wrapMsg e) ∧
    (∀ e, (getDevices st tr).res = .error e →
      (coordUpdate st tr).res = .error (wrapMsg e)) ∧
    (∀ devices ids e, (getDevices st tr).res = .ok devices → devices.truthy = true →
      deviceIdsOf devices = .ok ids →
      (getDeviceReadings ids (getDevices st tr).token (getDevices st tr).rest).res = .error e →
      (coordUpdate st tr).res = .error (wrapMsg e)) ∧
    (∀ (cs : CoordState) msg, (refreshStep cs tr).2.1 = some msg →
      (refreshStep cs tr).1.published = cs.published) := by
  refine ⟨?_, ?_, ?_, fun cs msg h => refreshStep_failure_keeps_published cs tr msg h⟩
  · intro msg hmsg
    simp only [coordUpdate] at hmsg
    split at hmsg
    next e hv => exact ⟨e, by simpa using hmsg.symm⟩
    next devices hv =>
      split at hmsg
      next ht => simp at hmsg
      next ht =>
        split at hmsg
        next e hids => exact ⟨e, by simpa using hmsg.symm⟩
        next ids hids =>
          split at hmsg
          next e2 hr2 => exact ⟨e2, by simpa using hmsg.symm⟩
          next rd hr2 => simp at hmsg
  · intro e he
    simp only [coordUpdate]
    rw [he]
  · intro devices ids e hdev ht hids hre
    simp only [coordUpdate]
    rw [hdev]
    simp only [ht, Bool.not_true, Bool.false_eq_true, if_false]
    rw [hids]
    simp only []
    rw [hre]

/-- C9: a failure on the very first refresh makes setup abort with the
not-ready signal and publishes nothing; once a first cycle has published a
`PollResult`, a failing later cycle leaves it observable unchanged. -/
theorem first_cycle_failure_not_ready (tr1 tr2 : List HttpOutcome) :
    (∀ msg, (refreshStep ⟨none, none⟩ tr1).2.1 = some msg →
      setupEntry tr1 = .error msg ∧ (refreshStep ⟨none, none⟩ tr1).1.published = none) ∧
    (∀ cs1, setupEntry tr1 = .ok cs1 →
      (∃ pr, cs1.published = some pr) ∧
      (∀ pr msg, cs1.published = some pr → (refreshStep cs1 tr2).2.1 = some msg →
        (refreshStep cs1 tr2).1.published = some pr)) := by
  constructor
  · intro msg h
    constructor
    · simp only [setupEntry]
      rw [h]
    · exact refreshStep_failure_keeps_published ⟨none, none⟩ tr1 msg h
  · intro cs1 hok
    have hsetup : (refreshStep ⟨none, none⟩ tr1).2.1 = none ∧
        cs1 = (refreshStep ⟨none, none⟩ tr1).1 := by
      simp only [setupEntry] at hok
      rcases he : (refreshStep (⟨none, none⟩ : CoordState) tr1).2.1 with _ | msg <;>
        rw [he] at hok
      · simp at hok
        exact ⟨rfl, hok.symm⟩
      · simp at hok
    obtain ⟨hnone, hcs1⟩ := hsetup
    constructor
    · rcases refreshStep_cases ⟨none, none⟩ tr1 with ⟨pr, -, heq⟩ | ⟨msg, -, heq⟩
      · exact ⟨pr, by rw [hcs1, heq]⟩
      · rw [heq] at hnone
        simp at hnone
    · intro pr msg hpub hfail
      rw [← hpub]
      exact refreshStep_failure_keeps_published cs1 tr2 msg hfail

/-! ### C7: the credential cipher's output format -/

/-- Sanity check of the embedded AES-256: the FIPS-197 appendix C.3 test
vector (key `00 01 ... 1f`, plaintext `00112233445566778899aabbccddeeff`). -/
theorem aes256_fips197_c3 :
    AES.encryptBlock (AES.keyWords (List.range 32))
      [0x00, 0x11, 0x22, 0x33, 0x44, 0x55, 0x66, 0x77,
       0x88, 0x99, 0xaa, 0xbb, 0xcc, 0xdd, 0xee, 0xff] =
      [0x8e, 0xa2, 0xb7, 0xca, 0x51, 0x67, 0x45, 0xbf,
       0xea, 0xfc, 0x49, 0x90, 0x4b, 0x49, 0x60, 0x89] := by
  rfl

/-- The embedded base64 key constant decodes to the 32 ASCII bytes of
`"32f80f054e0241cac4a5a8d1cfee9003"`. -/
theorem hannaKey_bytes : hannaKey = strBytes "32f80f054e0241cac4a5a8d1cfee9003" := by rfl

theorem shiftRows_length (s : List Nat) : (AES.shiftRows s).length = 16 := rfl

theorem roundKey14_length : (AES.roundKey hannaRoundKeys 14).length = 16 := by rfl

theorem encryptBlock_hanna_length (b : List Nat) :
    (AES.encryptBlock hannaRoundKeys b).length = 16 := by
  unfold AES.encryptBlock AES.xorBytes
  rw [List.length_zipWith, shiftRows_length, roundKey14_length]
  simp

theorem cbcEnc_length_aux : ∀ (n : Nat) (bs prev : List Nat), bs.length ≤ n →
    bs.length % 16 = 0 → (AES.cbcEnc hannaRoundKeys prev bs).length = bs.length := by
  intro n
  induction n with
  | zero =>
    intro bs prev hle h
    rw [AES.cbcEnc.eq_def]
    split
    next hbs => simp [hbs]
    next hbs =>
      exact absurd (List.length_eq_zero.mp (Nat.le_zero.mp hle)) hbs
  | succ n ih =>
    intro bs prev hle h
    rw [AES.cbcEnc.eq_def]
    split
    next hbs => simp [hbs]
    next hbs =>
      have hpos : 0 < bs.length := List.length_pos.mpr hbs
      have h16 : 16 ≤ bs.length := by omega
      rw [List.length_append, encryptBlock_hanna_length,
        ih (bs.drop 16) _ (by simp; omega) (by simp; omega)]
      simp
      omega

theorem cbcEnc_length (bs : List Nat) (prev : List Nat) (h : bs.length % 16 = 0) :
    (AES.cbcEnc hannaRoundKeys prev bs).length = bs.length :=
  cbcEnc_length_aux bs.length bs prev le_rfl h

theorem pkcs7pad_length (bs : List Nat) :
    (pkcs7pad bs).length = bs.length + (16 - bs.length % 16) := by
  simp [pkcs7pad]

theorem bytesHex_length (bs : List Nat) : (bytesHex bs).length = 2 * bs.length := by
  show ((bs.map byteHex).flatten).length = 2 * bs.length
  induction bs with
  | nil => rfl
  | cons b bs ih =>
    simp only [List.map_cons, List.flatten_cons, List.length_append, ih]
    simp [byteHex]
    omega

theorem hexChar_mem (n : Nat) (h : n < 16) : hexChar n ∈ "0123456789abcdef".data := by
  interval_cases n <;> decide

theorem asciiAlnum_getD_mem (i : Nat) (h : i < 62) : asciiAlnum.getD i 'a' ∈ asciiAlnum := by
  interval_cases i <;> decide

/-- C7: for every plaintext (and every random stream), `hanna_encrypt`
returns `iv ++ ":" ++ hex` where the IV is exactly 16 characters drawn from
the 62-character alphanumeric alphabet by this call's own fresh draws
(`pos .. pos+15`, the next call starting at `pos+16`), and `hex` is the
non-empty, even-length lowercase-hex encoding of the AES-256-CBC ciphertext
of the PKCS#7-padded UTF-8 plaintext under the fixed key, with the IV's
bytes as the CBC initialization vector. -/
theorem hannaEncrypt_format (rng : Nat → Nat) (pos : Nat) (plaintext : String) :
    ∃ iv hex,
      (hannaEncrypt rng pos plaintext).1 = String.mk iv ++ ":" ++ hex ∧
      (hannaEncrypt rng pos plaintext).2 = pos + 16 ∧
      iv = (List.range 16).map (fun j => asciiAlnum.getD (rng (pos + j) % 62) 'a') ∧
      iv.length = 16 ∧
      asciiAlnum.length = 62 ∧
      (∀ c ∈ iv, c ∈ asciiAlnum) ∧
      hex = bytesHex (AES.cbcEnc hannaRoundKeys (iv.map Char.toNat)
        (pkcs7pad (strBytes plaintext))) ∧
      hex.length = 2 * (pkcs7pad (strBytes plaintext)).length ∧
      hex.length % 2 = 0 ∧
      hex ≠ "" ∧
      (∀ c ∈ hex.data, c ∈ "0123456789abcdef".data) := by
  refine ⟨(List.range 16).map (fun j => asciiAlnum.getD (rng (pos + j) % 62) 'a'),
    bytesHex (AES.cbcEnc hannaRoundKeys
      (((List.range 16).map (fun j => asciiAlnum.getD (rng (pos + j) % 62) 'a')).map
        Char.toNat)
      (pkcs7pad (strBytes plaintext))),
    rfl, rfl, rfl, by simp, by decide, ?_, rfl, ?_, ?_, ?_, ?_⟩
  · intro c hc
    rcases List.mem_map.mp hc with ⟨j, -, hj⟩
    rw [← hj]
    exact asciiAlnum_getD_mem _ (Nat.mod_lt _ (by omega))
  · rw [bytesHex_length, cbcEnc_length _ _ (by rw [pkcs7pad_length]; omega)]
  · rw [bytesHex_length, cbcEnc_length _ _ (by rw [pkcs7pad_length]; omega)]
    omega
  · have hlen : (bytesHex (AES.cbcEnc hannaRoundKeys
        (((List.range 16).map (fun j => asciiAlnum.getD (rng (pos + j) % 62) 'a')).map
          Char.toNat)
        (pkcs7pad (strBytes plaintext)))).length =
        2 * (pkcs7pad (strBytes plaintext)).length := by
      rw [bytesHex_length, cbcEnc_length _ _ (by rw [pkcs7pad_length]; omega)]
    intro hempty
    rw [hempty, pkcs7pad_length] at hlen
    have hzero : ("" : String).length = 0 := rfl
    omega
  · intro c hc
    have hc' : c ∈ ((AES.cbcEnc hannaRoundKeys
        (((List.range 16).map (fun j => asciiAlnum.getD (rng (pos + j) % 62) 'a')).map
          Char.toNat)
        (pkcs7pad (strBytes plaintext))).map byteHex).flatten := hc
    rcases List.mem_flatten.mp hc' with ⟨l, hl, hcl⟩
    rcases List.mem_map.mp hl with ⟨b, -, hb⟩
    rw [← hb] at hcl
    simp [byteHex] at hcl
    rcases hcl with hcl | hcl <;> rw [hcl] <;>
      exact hexChar_mem _ (Nat.mod_lt _ (by omega))

end Hanna
